import Mathlib

/-!
# The `cats` reduction of vowpal wabbit (`vowpalwabbit/cats.cc`)

A shallow embedding of the outermost stage of the continuous-action
contextual-bandit stack: the pass-through wrapper (`cats::predict`,
`cats::learn`, `predict_or_learn`), the progress and output reporter
(`finish_example`, `reduction_output`) and the stack composer (`setup`).

Conventions of the embedding.

* A C++ function that mutates its reference arguments returns the new values
  of those arguments next to what it returns or throws, so that the state left
  behind by a `THROW` or by a failed `assert` can be inspected.
* Collaborators that live outside `cats.cc` (the inner learner, the option
  store, the statistics aggregator, the text renderers, `setup_base`) are
  parameters or are modelled from the specification; each such definition says
  so in its doc comment.
* `float` and `double` quantities range over a type `F` that carries the few
  operations the file performs on them (`float_ops`); nothing is assumed about
  those operations.
* An `int` is an integer without bound: the file compares the action counts
  and prints one of them, and does no arithmetic on them.
* The `VW_DBG` trace statements are disabled in the file (`VW_DEBUG_ENABLE(false)`)
  and write nothing; they are left out.
-/

namespace VW
namespace continuous_action

/-! ## Decimal text of an `int` -/

/-- The character of a decimal digit `d < 10`. -/
def digit_char (d : Nat) : Char := Char.ofNat (48 + d)

/-- The value of a decimal digit character, `none` for any other character. -/
def digit_value (c : Char) : Option Nat :=
  if 48 ≤ c.toNat ∧ c.toNat ≤ 57 then some (c.toNat - 48) else none

/-- Decimal digits of `n`, least significant first, none for `0`; `fuel`
bounds the number of digits produced. -/
def digits_upto : Nat → Nat → List Nat
  | 0, _ => []
  | fuel + 1, n => if n = 0 then [] else (n % 10) :: digits_upto fuel (n / 10)

/-- Decimal digits of a natural number, most significant first, `0` as one digit. -/
def decimal_nat (n : Nat) : List Char :=
  if n = 0 then [digit_char 0] else (digits_upto n n).reverse.map digit_char

/-- What `strm << num_actions` leaves in the stream for an `int`: the decimal
text, with a leading minus sign for a negative number. -/
def to_decimal : Int → String
  | Int.ofNat m => String.mk (decimal_nat m)
  | Int.negSucc m => String.mk ('-' :: decimal_nat (m + 1))

/-- Reads a run of decimal digits, continuing from the accumulator `acc`. -/
def parse_digits : List Char → Nat → Option Nat
  | [], acc => some acc
  | c :: cs, acc =>
    match digit_value c with
    | some d => parse_digits cs (10 * acc + d)
    | none => none

/-- Reads a non-empty run of decimal digits. -/
def parse_nat (cs : List Char) : Option Nat :=
  match cs with
  | [] => none
  | c :: rest => parse_digits (c :: rest) 0

/-- Reads the decimal text of an integer: an optional minus sign followed by
a non-empty run of digits. -/
def parse_int (s : String) : Option Int :=
  match s.data with
  | [] => none
  | c :: cs =>
    if c = '-' then (parse_nat cs).map (fun m => -(m : Int))
    else (parse_nat (c :: cs)).map (fun m => (m : Int))

/-! ## The option store -/

/-- Modelled from the spec: the option store `options_i` (declared in
`options.h`, which is not part of `cats.cc`) is a key/value store that answers
"was this key supplied" and accepts inserted values. Values are text, as the two
`insert` calls of `setup` pass them; the pairs are kept in the order in which
they were supplied or inserted. -/
structure options_i where
  supplied : List (String × String)
deriving DecidableEq, Repr

/-- The text stored under a key, when the key is present (first occurrence). -/
def options_i.get (options : options_i) (key : String) : Option String :=
  (options.supplied.find? (fun kv => kv.1 == key)).map (fun kv => kv.2)

/-- Modelled from the spec: `options.was_supplied(key)`, whether the key is in
the store. -/
def options_i.was_supplied (options : options_i) (key : String) : Bool :=
  (options.get key).isSome

/-- Modelled from the spec: `options.insert(key, value)`, the store with the
pair added after the ones it holds. -/
def options_i.insert (options : options_i) (key value : String) : options_i :=
  { supplied := options.supplied ++ [(key, value)] }

/-- An `int` option as `make_option(name, variable)` declares it: its key, the
value the bound variable holds before parsing (the default), and the two
decorations `keep()` and `help(...)`. -/
structure typed_option where
  name : String
  value : Int
  keep : Bool := false
  help : String := ""
deriving DecidableEq, Repr

/-- Declaration `make_option(name, variable)`. -/
def make_option (name : String) (location : Int) : typed_option :=
  { name := name, value := location }

/-- Decoration `.keep()`. -/
def typed_option.set_keep (o : typed_option) : typed_option := { o with keep := true }

/-- Decoration `.help(text)`. -/
def typed_option.set_help (o : typed_option) (text : String) : typed_option :=
  { o with help := text }

/-- A group of declared options (`option_group_definition`): its title and
the options added to it, in order. -/
structure option_group_definition where
  name : String
  options : List typed_option := []
deriving DecidableEq, Repr

/-- Method `group.add(option)`. -/
def option_group_definition.add (group : option_group_definition) (o : typed_option) :
    option_group_definition :=
  { group with options := group.options ++ [o] }

/-- Modelled from the spec: what parsing leaves in the variable bound to one
declared `int` option. The variable receives the integer that the supplied text
denotes and keeps its default when the key was not supplied. Text that denotes
no `int` is turned away by the option parser, outside this file; the model
leaves the default in that case. -/
def options_i.parse_option (options : options_i) (o : typed_option) : Int :=
  match options.get o.name with
  | some text => (parse_int text).getD o.value
  | none => o.value

/-- Modelled from the spec: `options.add_and_parse(group)`. The result gives,
for the name of each option of the group, the value of the variable bound to it
after parsing. The store itself is not changed by parsing. -/
def options_i.add_and_parse (options : options_i) (group : option_group_definition)
    (name : String) : Int :=
  match group.options.find? (fun o => o.name == name) with
  | some o => options.parse_option o
  | none => 0

/-! ## Examples, labels and predictions -/

/-- The operations `cats.cc` performs on `float` and `double` quantities: the
literal `0.f`, the constant `FLT_MAX` of `<cfloat>`, `+=`, `!=` and `>=`.
They are parameters of the development. -/
class float_ops (F : Type) where
  zero : F
  FLT_MAX : F
  add : F → F → F
  ne : F → F → Bool
  ge : F → F → Bool

/-- One element of a continuous-action label (`continuous_label_elm`). -/
structure continuous_label_elm (F : Type) where
  action : F
  cost : F
  pdf_value : F
deriving DecidableEq, Repr

/-- The continuous-action label `ec.l.cb_cont`: the sequence `costs`. -/
structure continuous_label (F : Type) where
  costs : List (continuous_label_elm F)
deriving DecidableEq, Repr

/-- The prediction `ec.pred.a_pdf` (`actions_pdf::action_pdf_value`). -/
structure action_pdf_value (F : Type) where
  action : F
  pdf_value : F
deriving DecidableEq, Repr

/-- The fields of `example` that `cats.cc` touches, with the feature
representation `features` kept as a value of an arbitrary type `X`. -/
structure vw_example (F X : Type) where
  features : X
  cb_cont : continuous_label F
  a_pdf : action_pdf_value F
  test_only : Bool
  weight : F
  num_features : Nat
deriving DecidableEq, Repr

/-! ## The stage wrapper -/

/-- The ways in which a call in this file stops the program instead of
returning: a failed `assert`, a call through a null `_base`, and a read of
`costs[0]` from an empty label sequence. -/
inductive fault where
  | assertion_failed
  | null_base
  | index_out_of_range
deriving DecidableEq, Repr

/-- The status codes and error kinds of `err_constants.h` that the file names. -/
inductive error_code where
  | success
  | num_actions_gt_zero
  | action_counts_disagree
deriving DecidableEq, Repr

/-- The status object `api_status`; a fresh one reports `success`. -/
structure api_status where
  error : error_code := error_code.success
  msg : String := ""
deriving DecidableEq, Repr

/-- Accessor `status.get_error_code()`. -/
def api_status.get_error_code (status : api_status) : error_code := status.error

/-- The inner stage `single_learner`: its own state of an arbitrary type `S`
and its two entry points, each of which works in place on the example and on
that state. -/
structure single_learner (S E : Type) where
  state : S
  predict_f : S → E → S × E
  learn_f : S → E → S × E

/-- Call `base->predict(ec)`: the stage and the example after the call. -/
def single_learner.predict {S E : Type} (base : single_learner S E) (ec : E) :
    single_learner S E × E :=
  ({ base with state := (base.predict_f base.state ec).1 }, (base.predict_f base.state ec).2)

/-- Call `base->learn(ec)`: the stage and the example after the call. -/
def single_learner.learn {S E : Type} (base : single_learner S E) (ec : E) :
    single_learner S E × E :=
  ({ base with state := (base.learn_f base.state ec).1 }, (base.learn_f base.state ec).2)

/-- The reduction object `struct cats`: the pointer `_base`, null until `init`. -/
structure cats (S E : Type) where
  _base : Option (single_learner S E) := none

/-- Method `cats::init`. -/
def cats.init {S E : Type} (_self : cats S E) (p_base : single_learner S E) : cats S E :=
  { _base := some p_base }

/-- Method `cats::predict`: forwards to `_base->predict(ec)` and returns
`error_code::success`. The result is the wrapper and the example after the
call, with the returned code or the fault that stopped the call. -/
def cats.predict {S F X : Type} (self : cats S (vw_example F X)) (ec : vw_example F X)
    (_status : Option api_status := none) :
    (cats S (vw_example F X) × vw_example F X) × Except fault error_code :=
  match self._base with
  | none => ((self, ec), Except.error fault.null_base)
  | some base =>
    let r := base.predict ec
    (({ _base := some r.1 }, r.2), Except.ok error_code.success)

/-- Modelled from the spec: the macro `assert` of `<cassert>`. A false
condition stops the program (the spec asks that `learn` fail fast through it).
In a build that defines `NDEBUG` the macro expands to nothing; that build is
not the one modelled. -/
def assert (condition : Bool) : Except fault Unit :=
  if condition then Except.ok () else Except.error fault.assertion_failed

/-- Method `cats::learn`: `assert(!ec.test_only)`, then `predict(ec, status)`,
then `_base->learn(ec)`, then `return error_code::success`. -/
def cats.learn {S F X : Type} (self : cats S (vw_example F X)) (ec : vw_example F X)
    (status : Option api_status := none) :
    (cats S (vw_example F X) × vw_example F X) × Except fault error_code :=
  match assert (!ec.test_only) with
  | Except.error f => ((self, ec), Except.error f)
  | Except.ok _ =>
    match self.predict ec status with
    | (st, Except.error f) => (st, Except.error f)
    | ((self1, ec1), Except.ok _) =>
      match self1._base with
      | none => ((self1, ec1), Except.error fault.null_base)
      | some base =>
        let r := base.learn ec1
        (({ _base := some r.1 }, r.2), Except.ok error_code.success)

/-- Free function `predict_or_learn<is_learn>`: calls `reduction.learn` or
`reduction.predict` with a fresh status and returns nothing; the status is
read afterwards only to trace a message. The second argument is unused in the
source as well. -/
def predict_or_learn {S F X : Type} (is_learn : Bool) (reduction : cats S (vw_example F X))
    (_base : single_learner S (vw_example F X)) (ec : vw_example F X) :
    (cats S (vw_example F X) × vw_example F X) × Except fault Unit :=
  let status : api_status := {}
  let r := if is_learn then reduction.learn ec (some status) else reduction.predict ec (some status)
  match r with
  | (st, Except.error f) => (st, Except.error f)
  | (st, Except.ok _) =>
    if status.get_error_code != error_code.success then (st, Except.ok ()) else (st, Except.ok ())

/-! ## Progress and output -/

/-- The statistics object `all.sd` (`shared_data`): the two fields the file
reads or writes directly, and the counters of the aggregator itself, of an
arbitrary type `A`. -/
structure shared_data (F A : Type) where
  weighted_labels : F
  dump_interval : F
  counters : A

/-- The fields of the session object `vw` that the file reads. -/
structure vw (F A : Type) where
  sd : shared_data F A
  quiet : Bool
  bfgs : Bool
  final_prediction_sink : List Int
  holdout_set_off : Bool
  current_pass : Nat
  progress_add : Bool
  progress_arg : F

/-- The functions that `cats.cc` calls and that are defined elsewhere:
`shared_data::update`, `shared_data::weighted_examples`,
`shared_data::print_update`, the three `to_string` renderers (of a label
element, of a prediction, and of a prediction with a flag) and the generic
`VW::finish_example`. They are parameters of the development. -/
structure collaborators (F X A : Type) where
  update : shared_data F A → Bool → Bool → F → F → Nat → shared_data F A
  weighted_examples : shared_data F A → F
  print_update : shared_data F A → Bool → Nat → String → String → Nat → Bool → F →
    shared_data F A
  label_to_string : continuous_label_elm F → String
  pdf_to_string : action_pdf_value F → String
  pdf_to_string_flag : action_pdf_value F → Bool → String
  finish_example : vw F A → vw_example F X → vw F A × vw_example F X

/-- One call `io_buf::write_file_or_socket(f, str.c_str(), str.size())`: the
handle and the bytes written. -/
structure sink_write where
  handle : Int
  text : String
deriving DecidableEq, Repr

/-- Function `reduction_output::output_predictions`: renders the prediction
once with the flag `true` and walks the handles in order, writing to those that
are `> 0`. The writes are appended to the record `written` of the writes made
so far. -/
def output_predictions {F X A : Type} (ext : collaborators F X A)
    (predict_file_descriptors : List Int) (prediction : action_pdf_value F)
    (written : List sink_write) : List sink_write :=
  let str := ext.pdf_to_string_flag prediction true
  predict_file_descriptors.foldl
    (fun out f => if f > 0 then out ++ [{ handle := f, text := str }] else out) written

/-- Function `reduction_output::does_example_have_label`:
`!costs.empty() && costs[0].action != FLT_MAX`. -/
def does_example_have_label {F X : Type} [float_ops F] (ec : vw_example F X) : Bool :=
  match ec.cb_cont.costs with
  | [] => false
  | first :: _ => float_ops.ne first.action (float_ops.FLT_MAX : F)

/-- Function `reduction_output::print_update_cb_cont`: when the weighted
example count has reached the dump interval and the session is neither quiet
nor in bfgs mode, renders `costs[0]` and the prediction and calls
`print_update`. The read `costs[0]` is not guarded: on an empty sequence it is
outside the array, which the model reports as `index_out_of_range`. -/
def print_update_cb_cont {F X A : Type} [float_ops F] (ext : collaborators F X A)
    (all : vw F A) (ec : vw_example F X) : vw F A × Except fault Unit :=
  if float_ops.ge (ext.weighted_examples all.sd) all.sd.dump_interval && !all.quiet && !all.bfgs then
    match ec.cb_cont.costs with
    | [] => (all, Except.error fault.index_out_of_range)
    | first :: _ =>
      let sd1 := ext.print_update all.sd all.holdout_set_off all.current_pass
        (ext.label_to_string first) (ext.pdf_to_string ec.a_pdf) ec.num_features
        all.progress_add all.progress_arg
      ({ all with sd := sd1 }, Except.ok ())
  else (all, Except.ok ())

/-- The loss argument of `report_progress`:
`cb_cont_costs.empty() ? 0.f : cb_cont_costs[0].cost`. -/
def first_cost_or_zero {F X : Type} [float_ops F] (ec : vw_example F X) : F :=
  match ec.cb_cont.costs with
  | [] => float_ops.zero
  | first :: _ => first.cost

/-- Function `reduction_output::report_progress`: `all.sd->update(...)`, then
`all.sd->weighted_labels += ec.weight`, then `print_update_cb_cont`. -/
def report_progress {S F X A : Type} [float_ops F] (ext : collaborators F X A)
    (all : vw F A) (_data : cats S (vw_example F X)) (ec : vw_example F X) :
    vw F A × Except fault Unit :=
  let sd1 := ext.update all.sd ec.test_only (does_example_have_label ec) (first_cost_or_zero ec)
    ec.weight ec.num_features
  let sd2 := { sd1 with weighted_labels := float_ops.add sd1.weighted_labels ec.weight }
  print_update_cb_cont ext { all with sd := sd2 } ec

/-- What a finished example leaves behind: the session, the example and the
record of sink writes. -/
structure finished (F X A : Type) where
  all : vw F A
  ec : vw_example F X
  written : List sink_write

/-- Free function `finish_example`: `report_progress`, then
`output_predictions(all.final_prediction_sink, ec.pred.a_pdf)`, then
`VW::finish_example(all, ec)`. -/
def finish_example {S F X A : Type} [float_ops F] (ext : collaborators F X A)
    (all : vw F A) (data : cats S (vw_example F X)) (ec : vw_example F X)
    (written : List sink_write) : finished F X A × Except fault Unit :=
  match report_progress ext all data ec with
  | (all1, Except.error f) => ({ all := all1, ec := ec, written := written }, Except.error f)
  | (all1, Except.ok _) =>
    let written1 := output_predictions ext all1.final_prediction_sink ec.a_pdf written
    let r := ext.finish_example all1 ec
    ({ all := r.1, ec := r.2, written := written1 }, Except.ok ())

/-! ## The stack composer -/

/-- What `setup` and `setup_base` throw: the two configuration errors of this
file, and any other exception of the stages below. -/
inductive vw_exception where
  | num_actions_gt_zero_s
  | action_counts_disagree_s
  | what (msg : String)
deriving DecidableEq, Repr

/-- The prediction type named in the registration. -/
inductive prediction_type where
  | action_pdf_value
deriving DecidableEq, Repr

/-- The functions of this file that `setup` registers, by name. -/
inductive entry_point where
  | predict_or_learn (is_learn : Bool)
  | finish_example
deriving DecidableEq, Repr

/-- The registered stage `LEARNER::learner<cats, example>`: the reduction
object, the inner stage, the two entry points, the number of predictions per
example, the prediction type and the finish-example hook. -/
structure learner (S E : Type) where
  learner_data : cats S E
  base : single_learner S E
  learn_fd : entry_point
  predict_fd : entry_point
  params_per_weight : Nat
  pred_type : prediction_type
  finish_example_fd : Option entry_point := none

/-- Function `init_learner(dat, base, learn, predict, ws, pred_type)`. -/
def init_learner {S E : Type} (dat : cats S E) (base : single_learner S E)
    (learn predict : entry_point) (ws : Nat) (pred_type : prediction_type) : learner S E :=
  { learner_data := dat, base := base, learn_fd := learn, predict_fd := predict,
    params_per_weight := ws, pred_type := pred_type }

/-- Method `l.set_finish_example(f)`. -/
def learner.set_finish_example {S E : Type} (l : learner S E) (f : entry_point) : learner S E :=
  { l with finish_example_fd := some f }

/-- The rest of the pipeline builder, `setup_base(options, all)`, as a
parameter: it may change the store and the session, and either returns the
inner stage or throws. -/
abbrev setup_base_t (S E F A : Type) : Type :=
  options_i → vw F A → (options_i × vw F A) × Except vw_exception (single_learner S E)

/-- Function `setup`. The result is the store and the session as the call
leaves them, with what the call returns (`none` for `nullptr`) or throws. -/
def setup {S E F A : Type} (setup_base : setup_base_t S E F A) (options : options_i)
    (all : vw F A) : (options_i × vw F A) × Except vw_exception (Option (learner S E)) :=
  let new_options : option_group_definition := { name := "Continuous action tree with smoothing" }
  let num_actions : Int := 0
  let pdf_num_actions : Int := 0
  let new_options := (new_options.add
      (((make_option "cats" num_actions).set_keep).set_help "Continuous action tree with smoothing")).add
      (((make_option "cats_pdf" pdf_num_actions).set_keep).set_help
        "Continuous action tree with smoothing (pdf)")
  let parsed := options.add_and_parse new_options
  let num_actions := parsed "cats"
  let pdf_num_actions := parsed "cats_pdf"
  if !options.was_supplied "cats" then ((options, all), Except.ok none)
  else if num_actions ≤ 0 then ((options, all), Except.error vw_exception.num_actions_gt_zero_s)
  else
    let options := if !options.was_supplied "sample_pdf" then options.insert "sample_pdf" ""
      else options
    let checked : Except vw_exception options_i :=
      if options.was_supplied "cats_pdf" then
        if pdf_num_actions ≠ num_actions then
          Except.error vw_exception.action_counts_disagree_s
        else Except.ok options
      else
        Except.ok (options.insert "cats_pdf" (to_decimal num_actions))
    match checked with
    | Except.error e => ((options, all), Except.error e)
    | Except.ok options =>
      match setup_base options all with
      | (st, Except.error e) => (st, Except.error e)
      | (st, Except.ok p_base) =>
        let p_reduction : cats S E := {}
        let p_reduction := p_reduction.init p_base
        let l := init_learner p_reduction p_base (entry_point.predict_or_learn true)
          (entry_point.predict_or_learn false) 1 prediction_type.action_pdf_value
        let l := l.set_finish_example entry_point.finish_example
        (st, Except.ok (some l))

/-! ## Notions used to state the properties -/

/-- The integer supplied under a key: the number its text denotes. -/
def options_i.int_value (options : options_i) (key : String) : Option Int :=
  (options.get key).bind parse_int

/-- The option group that `setup` declares: `cats` and `cats_pdf`, both with
default `0`. -/
def declared_options : option_group_definition :=
  (({ name := "Continuous action tree with smoothing" } : option_group_definition).add
    (((make_option "cats" 0).set_keep).set_help "Continuous action tree with smoothing")).add
    (((make_option "cats_pdf" 0).set_keep).set_help "Continuous action tree with smoothing (pdf)")

/-- The store `later` holds the pairs of `earlier`, followed by further ones. -/
def options_i.extended_by (earlier later : options_i) : Prop :=
  ∃ more, later.supplied = earlier.supplied ++ more

/-- The store on which `setup` goes on once the action count is accepted:
`sample_pdf` is added with the empty text when it was not supplied. -/
def with_sample_pdf (options : options_i) : options_i :=
  if options.was_supplied "sample_pdf" then options else options.insert "sample_pdf" ""

/-- The stage that wraps the inner stage `b`, as `setup` registers it. -/
def wrapped {S E : Type} (b : single_learner S E) : learner S E :=
  { learner_data := { _base := some b }, base := b,
    learn_fd := entry_point.predict_or_learn true,
    predict_fd := entry_point.predict_or_learn false,
    params_per_weight := 1, pred_type := prediction_type.action_pdf_value,
    finish_example_fd := some entry_point.finish_example }

/-- The outcome of `setup` once it has called `setup_base`: the store and the
session as `setup_base` left them, with the wrapper around the stage that
`setup_base` returned, or with what `setup_base` threw. -/
def built {S E F A : Type}
    (r : (options_i × vw F A) × Except vw_exception (single_learner S E)) :
    (options_i × vw F A) × Except vw_exception (Option (learner S E)) :=
  (r.1, match r.2 with
        | Except.ok b => Except.ok (some (wrapped b))
        | Except.error e => Except.error e)

/-- The wrapper's `predict` in the words of the specification: it forwards
the example to the inner stage's `predict`, once. The result is the inner stage
and the example after the call. -/
def spec_predict {S E : Type} (base : single_learner S E) (ec : E) : single_learner S E × E :=
  base.predict ec

/-- The wrapper's `learn` in the words of the specification: it first performs
`predict` on the example, then forwards to the inner stage's `learn`. -/
def spec_learn {S E : Type} (base : single_learner S E) (ec : E) : single_learner S E × E :=
  (base.predict ec).1.learn (base.predict ec).2

/-- The writes the specification asks of the output step: one per handle that
is strictly positive, in the order of the sinks, each carrying `text`. -/
def spec_writes (sinks : List Int) (text : String) : List sink_write :=
  (sinks.filter (fun f => decide (0 < f))).map (fun f => { handle := f, text := text })

/-- The specification's "usable label" predicate: the label sequence is not
empty and its first action is not the sentinel `FLT_MAX`. -/
def spec_has_label {F X : Type} [float_ops F] (ec : vw_example F X) : Prop :=
  ec.cb_cont.costs ≠ [] ∧
    ∀ first, ec.cb_cont.costs.head? = some first →
      float_ops.ne first.action (float_ops.FLT_MAX : F) = true

/-! ## Concrete collaborators, for evaluating the definitions -/

/-- Integer-valued quantities with exact arithmetic; `FLT_MAX`, the largest
finite `float`, is the integer `(2 ^ 24 - 1) * 2 ^ 104`. -/
instance int_float_ops : float_ops Int where
  zero := 0
  FLT_MAX := (2 ^ 24 - 1) * 2 ^ 104
  add := fun a b => a + b
  ne := fun a b => decide (a ≠ b)
  ge := fun a b => decide (a ≥ b)

/-- An inner stage without state that leaves every example as it is. -/
def idle_stage (E : Type) : single_learner Unit E :=
  { state := (), predict_f := fun s ec => (s, ec), learn_f := fun s ec => (s, ec) }

/-- A pipeline builder that returns `idle_stage` and changes nothing. -/
def base_ok (E A : Type) : setup_base_t Unit E Int A :=
  fun options all => ((options, all), Except.ok (idle_stage E))

/-- A pipeline builder that adds a key to the store and then throws. -/
def base_throws (E A : Type) : setup_base_t Unit E Int A :=
  fun options all => ((options.insert "base" "", all), Except.error (vw_exception.what "base"))

/-- An inner stage that keeps the list of the calls made to it; its `predict`
sets the prediction to action `5` with density `2`. -/
def recording_stage : single_learner (List String) (vw_example Int Unit) :=
  { state := [],
    predict_f := fun s ec => (s ++ ["predict"], { ec with a_pdf := { action := 5, pdf_value := 2 } }),
    learn_f := fun s ec => (s ++ ["learn"], ec) }

/-- Modelled from the spec: the counters of the statistics aggregator
(`shared_data`, defined outside `cats.cc`): the weighted example count, the
sum of losses and the feature count. -/
structure aggregate where
  weighted_examples : Int
  sum_loss : Int
  total_features : Nat
deriving DecidableEq, Repr

/-- Modelled from the spec: `shared_data::update`, which "updates a weighted
average of loss when a label is present, always updating the weighted example
count and feature-count diagnostics". -/
def aggregate_update (sd : shared_data Int aggregate) (_test_example labeled_example : Bool)
    (loss weight : Int) (num_features : Nat) : shared_data Int aggregate :=
  { sd with counters :=
      { weighted_examples := sd.counters.weighted_examples + weight,
        sum_loss := if labeled_example then sd.counters.sum_loss + loss else sd.counters.sum_loss,
        total_features := sd.counters.total_features + num_features } }

/-- Concrete collaborators: the aggregator modelled from the spec, a
`print_update` that only prints, decimal renderers, and a finalizer that
leaves the session and the example as they are. -/
def plain_collaborators : collaborators Int Unit aggregate :=
  { update := aggregate_update,
    weighted_examples := fun sd => sd.counters.weighted_examples,
    print_update := fun sd _ _ _ _ _ _ _ => sd,
    label_to_string := fun l => to_decimal l.action ++ ":" ++ to_decimal l.cost,
    pdf_to_string := fun p => to_decimal p.action ++ "," ++ to_decimal p.pdf_value,
    pdf_to_string_flag := fun p newline =>
      to_decimal p.action ++ "," ++ to_decimal p.pdf_value ++ (if newline then "\n" else ""),
    finish_example := fun all ec => (all, ec) }

/-- A session with empty statistics, dump interval `1` and sinks `[3, -1, 7]`. -/
def session0 : vw Int aggregate :=
  { sd := { weighted_labels := 0, dump_interval := 1,
            counters := { weighted_examples := 0, sum_loss := 0, total_features := 0 } },
    quiet := false, bfgs := false, final_prediction_sink := [3, -1, 7],
    holdout_set_off := true, current_pass := 0, progress_add := false, progress_arg := 2 }

/-- A labelled example of weight `1`: action `3`, cost `1`, density `2`. -/
def labelled_example : vw_example Int Unit :=
  { features := (), cb_cont := { costs := [{ action := 3, cost := 1, pdf_value := 2 }] },
    a_pdf := { action := 0, pdf_value := 0 }, test_only := false, weight := 1, num_features := 2 }

/-- A test-only example of weight `1` without a label. -/
def unlabelled_example : vw_example Int Unit :=
  { features := (), cb_cont := { costs := [] },
    a_pdf := { action := 0, pdf_value := 0 }, test_only := true, weight := 1, num_features := 2 }

/-! ## Decimal text: reading back what was written -/

theorem digits_upto_eq_digits (fuel n : Nat) (h : n ≤ fuel) :
    digits_upto fuel n = Nat.digits 10 n := by
  induction fuel generalizing n with
  | zero =>
    have h0 : n = 0 := Nat.le_zero.mp h
    subst h0
    simp [digits_upto]
  | succ k ih =>
    by_cases h0 : n = 0
    · subst h0
      simp [digits_upto]
    · have hpos : 0 < n := Nat.pos_of_ne_zero h0
      have hdiv : n / 10 ≤ k := by omega
      rw [Nat.digits_def' (by norm_num) hpos]
      simp [digits_upto, h0, ih _ hdiv]

theorem digit_value_digit_char (d : Nat) (h : d < 10) : digit_value (digit_char d) = some d := by
  interval_cases d <;> decide

theorem parse_digits_map_digit_char (ds : List Nat) (acc : Nat) (h : ∀ d ∈ ds, d < 10) :
    parse_digits (ds.map digit_char) acc = some (ds.foldl (fun a d => 10 * a + d) acc) := by
  induction ds generalizing acc with
  | nil => simp [parse_digits]
  | cons d rest ih =>
    have hd : d < 10 := h d (List.mem_cons_self _ _)
    have hrest : ∀ x ∈ rest, x < 10 := fun x hx => h x (List.mem_cons_of_mem _ hx)
    simp [parse_digits, digit_value_digit_char d hd, ih _ hrest]

theorem foldr_digits_eq_ofDigits (ds : List Nat) :
    ds.foldr (fun d a => 10 * a + d) 0 = Nat.ofDigits 10 ds := by
  induction ds with
  | nil => simp
  | cons d rest ih =>
    simp only [List.foldr_cons, ih, Nat.ofDigits_cons]
    omega

theorem parse_nat_decimal_nat (n : Nat) : parse_nat (decimal_nat n) = some n := by
  by_cases h0 : n = 0
  · subst h0
    decide
  · have hne : Nat.digits 10 n ≠ [] := Nat.digits_ne_nil_iff_ne_zero.mpr h0
    have hlt : ∀ d ∈ (Nat.digits 10 n).reverse, d < 10 := by
      intro d hd
      exact Nat.digits_lt_base (by norm_num) (List.mem_reverse.mp hd)
    have hp := parse_digits_map_digit_char (Nat.digits 10 n).reverse 0 hlt
    rw [List.foldl_reverse, foldr_digits_eq_ofDigits, Nat.ofDigits_digits] at hp
    have hdec : decimal_nat n = (Nat.digits 10 n).reverse.map digit_char := by
      simp [decimal_nat, h0, digits_upto_eq_digits n n (Nat.le_refl n)]
    rw [hdec]
    cases hl : (Nat.digits 10 n).reverse.map digit_char with
    | nil => simp [hne] at hl
    | cons c cs =>
      rw [hl] at hp
      simpa [parse_nat] using hp

theorem parse_nat_minus (cs : List Char) : parse_nat ('-' :: cs) = none := by
  simp [parse_nat, parse_digits, digit_value]

/-- Reading the decimal text of an integer gives the integer back. -/
theorem parse_int_to_decimal (n : Int) : parse_int (to_decimal n) = some n := by
  cases n with
  | ofNat m =>
    have hp := parse_nat_decimal_nat m
    cases hd : decimal_nat m with
    | nil => rw [hd] at hp; simp [parse_nat] at hp
    | cons c cs =>
      rw [hd] at hp
      by_cases hc : c = '-'
      · subst hc
        rw [parse_nat_minus] at hp
        exact absurd hp (by simp)
      · simp [parse_int, to_decimal, hd, hc, hp]
  | negSucc m =>
    have hp := parse_nat_decimal_nat (m + 1)
    simp [parse_int, to_decimal, hp, Int.negSucc_eq]

/-! ## The option store: lookups after insertions -/

theorem get_insert_of_some (options : options_i) (k v key text : String)
    (h : options.get key = some text) : (options.insert k v).get key = some text := by
  unfold options_i.get at h ⊢
  simp only [options_i.insert, List.find?_append]
  cases hf : List.find? (fun kv => kv.1 == key) options.supplied with
  | none => simp [hf] at h
  | some kv => simpa [hf] using h

theorem get_insert_of_none (options : options_i) (key v : String)
    (h : options.get key = none) : (options.insert key v).get key = some v := by
  unfold options_i.get at h ⊢
  simp only [options_i.insert, List.find?_append]
  cases hf : List.find? (fun kv => kv.1 == key) options.supplied with
  | none => simp
  | some kv => simp [hf] at h

theorem get_insert_of_ne (options : options_i) (k v key : String) (h : k ≠ key) :
    (options.insert k v).get key = options.get key := by
  unfold options_i.get
  simp only [options_i.insert, List.find?_append]
  cases hf : List.find? (fun kv => kv.1 == key) options.supplied with
  | none => simp [h]
  | some kv => simp

theorem get_extended_by (earlier later : options_i) (key text : String)
    (hext : earlier.extended_by later) (h : earlier.get key = some text) :
    later.get key = some text := by
  obtain ⟨more, hmore⟩ := hext
  unfold options_i.get at h ⊢
  rw [hmore, List.find?_append]
  cases hf : List.find? (fun kv => kv.1 == key) earlier.supplied with
  | none => simp [hf] at h
  | some kv => simpa [hf] using h

theorem was_supplied_of_int_value (options : options_i) (key : String) (n : Int)
    (h : options.int_value key = some n) : options.was_supplied key = true := by
  unfold options_i.int_value at h
  unfold options_i.was_supplied
  cases hg : options.get key with
  | none => simp [hg] at h
  | some text => simp

theorem parse_option_of_int_value (options : options_i) (o : typed_option) (n : Int)
    (h : options.int_value o.name = some n) : options.parse_option o = n := by
  unfold options_i.int_value at h
  unfold options_i.parse_option
  cases hg : options.get o.name with
  | none => simp [hg] at h
  | some text =>
    have hp : parse_int text = some n := by simpa [hg] using h
    simp [hp]

theorem add_and_parse_cats (options : options_i) (n : Int)
    (h : options.int_value "cats" = some n) :
    options.add_and_parse declared_options "cats" = n :=
  parse_option_of_int_value options
    (((make_option "cats" 0).set_keep).set_help "Continuous action tree with smoothing") n h

theorem add_and_parse_cats_pdf (options : options_i) (n : Int)
    (h : options.int_value "cats_pdf" = some n) :
    options.add_and_parse declared_options "cats_pdf" = n :=
  parse_option_of_int_value options
    (((make_option "cats_pdf" 0).set_keep).set_help
      "Continuous action tree with smoothing (pdf)") n h

theorem get_with_sample_pdf (options : options_i) (key text : String)
    (h : options.get key = some text) : (with_sample_pdf options).get key = some text := by
  unfold with_sample_pdf
  split
  · exact h
  · exact get_insert_of_some options _ _ key text h

theorem get_with_sample_pdf_of_ne (options : options_i) (key : String)
    (h : "sample_pdf" ≠ key) : (with_sample_pdf options).get key = options.get key := by
  unfold with_sample_pdf
  split
  · rfl
  · exact get_insert_of_ne options _ _ key h

/-- The course of `setup` once `cats` is supplied with a positive count `n`:
with `cats_pdf` supplied as `m`, the counts are compared and `setup_base` runs
on the store with `sample_pdf`; without `cats_pdf`, the text of `n` is inserted
first. -/
theorem setup_of_positive {S E F A : Type} (setup_base : setup_base_t S E F A)
    (options : options_i) (all : vw F A) (n : Int)
    (hcats : options.int_value "cats" = some n) (hpos : 0 < n) :
    setup setup_base options all =
      if (with_sample_pdf options).was_supplied "cats_pdf" then
        if options.add_and_parse declared_options "cats_pdf" ≠ n then
          ((with_sample_pdf options, all), Except.error vw_exception.action_counts_disagree_s)
        else built (setup_base (with_sample_pdf options) all)
      else
        built (setup_base ((with_sample_pdf options).insert "cats_pdf" (to_decimal n)) all) := by
  have hs : options.was_supplied "cats" = true := was_supplied_of_int_value options "cats" n hcats
  have hn : options.add_and_parse declared_options "cats" = n :=
    add_and_parse_cats options n hcats
  unfold declared_options at hn
  have hle : ¬ n ≤ 0 := by omega
  have hw : (if (!options.was_supplied "sample_pdf") = true then options.insert "sample_pdf" ""
      else options) = with_sample_pdf options := by
    unfold with_sample_pdf
    cases options.was_supplied "sample_pdf" <;> simp
  unfold setup declared_options
  simp only [hs, hn, hle, hw, Bool.not_true, Bool.false_eq_true, if_false]
  cases hpdf : (with_sample_pdf options).was_supplied "cats_pdf" with
  | false =>
    simp only [Bool.false_eq_true, if_false, built]
    cases hb : setup_base ((with_sample_pdf options).insert "cats_pdf" (to_decimal n)) all with
    | mk st r => cases r <;> rfl
  | true =>
    simp only [if_true]
    by_cases hne : options.add_and_parse declared_options "cats_pdf" ≠ n
    · unfold declared_options at hne
      rw [if_pos hne, if_pos hne]
    · unfold declared_options at hne
      rw [if_neg hne, if_neg hne]
      simp only [built]
      cases hb : setup_base (with_sample_pdf options) all with
      | mk st r => cases r <;> rfl

theorem built_fst {S E F A : Type}
    (r : (options_i × vw F A) × Except vw_exception (single_learner S E)) :
    (built r).1 = r.1 := rfl

/-! ## Properties of `setup` -/

/-- C1: when `cats` was not supplied, `setup` returns `nullptr` without an
error, leaves the store and the session exactly as they were (so neither
`sample_pdf` nor `cats_pdf` is inserted) and does not depend on `setup_base`
in any way: the pipeline builder is not called and no wrapper is made. Nothing
is assumed about `cats_pdf` and `sample_pdf`. -/
theorem setup_without_cats_is_no_reduction {S E F A : Type}
    (setup_base : setup_base_t S E F A) (options : options_i) (all : vw F A)
    (h : options.was_supplied "cats" = false) :
    setup setup_base options all = ((options, all), Except.ok none) := by
  unfold setup
  simp [h]

theorem setup_without_cats_is_no_reduction_witness :
    (options_i.mk [("cats_pdf", "3"), ("sample_pdf", "")]).was_supplied "cats" = false ∧
    setup (base_throws (vw_example Int Unit) aggregate)
        (options_i.mk [("cats_pdf", "3"), ("sample_pdf", "")]) session0 =
      ((options_i.mk [("cats_pdf", "3"), ("sample_pdf", "")], session0), Except.ok none) :=
  ⟨by decide, setup_without_cats_is_no_reduction _ _ _ (by decide)⟩

/-- C2: when `cats` is supplied with a count `n ≤ 0`, `setup` throws
`num_actions_gt_zero` and leaves the store and the session as they were,
whatever else the store holds (`cats_pdf` present or not, equal to `n` or not,
`sample_pdf` present or not) and whatever `setup_base` is. -/
theorem setup_rejects_nonpositive_count {S E F A : Type}
    (setup_base : setup_base_t S E F A) (options : options_i) (all : vw F A) (n : Int)
    (hcats : options.int_value "cats" = some n) (hn : n ≤ 0) :
    setup setup_base options all =
      ((options, all), Except.error vw_exception.num_actions_gt_zero_s) := by
  have hs : options.was_supplied "cats" = true := was_supplied_of_int_value options "cats" n hcats
  have hv : options.add_and_parse declared_options "cats" = n :=
    add_and_parse_cats options n hcats
  unfold declared_options at hv
  unfold setup
  simp [hs, hv, hn]

theorem setup_rejects_nonpositive_count_witness :
    (options_i.mk [("cats", "-3"), ("cats_pdf", "5")]).int_value "cats" = some (-3) ∧
    setup (base_ok (vw_example Int Unit) aggregate)
        (options_i.mk [("cats", "-3"), ("cats_pdf", "5")]) session0 =
      ((options_i.mk [("cats", "-3"), ("cats_pdf", "5")], session0),
        Except.error vw_exception.num_actions_gt_zero_s) :=
  ⟨by decide, setup_rejects_nonpositive_count _ _ _ (-3) (by decide) (by decide)⟩

/-- C3 as stated fails: with `cats` and `cats_pdf` both supplied as `0` (equal
values) `setup` does not succeed, and with `cats = -1`, `cats_pdf = 5` (unequal
values) it throws `num_actions_gt_zero`, not `action_counts_disagree`. The
pipeline builder used here never throws. -/
theorem setup_both_counts_counterexample :
    ((options_i.mk [("cats", "0"), ("cats_pdf", "0")]).int_value "cats" = some 0 ∧
      (options_i.mk [("cats", "0"), ("cats_pdf", "0")]).int_value "cats_pdf" = some 0 ∧
      (setup (base_ok (vw_example Int Unit) aggregate)
          (options_i.mk [("cats", "0"), ("cats_pdf", "0")]) session0).2 =
        Except.error vw_exception.num_actions_gt_zero_s) ∧
    ((options_i.mk [("cats", "-1"), ("cats_pdf", "5")]).int_value "cats" = some (-1) ∧
      (options_i.mk [("cats", "-1"), ("cats_pdf", "5")]).int_value "cats_pdf" = some 5 ∧
      (setup (base_ok (vw_example Int Unit) aggregate)
          (options_i.mk [("cats", "-1"), ("cats_pdf", "5")]) session0).2 =
        Except.error vw_exception.num_actions_gt_zero_s) :=
  ⟨⟨by decide, by decide, rfl⟩, ⟨by decide, by decide, rfl⟩⟩

/-- C3, amended: when `cats` is supplied with a count `n > 0` and `cats_pdf`
with a count `m`, then for `n ≠ m` `setup` throws `action_counts_disagree`
(the store then holds `sample_pdf`), and for `n = m` it raises no error of its
own: it calls `setup_base` on the store with `sample_pdf` and returns the
wrapper around the stage that `setup_base` returns, or passes on what
`setup_base` throws. -/
theorem setup_with_both_counts {S E F A : Type}
    (setup_base : setup_base_t S E F A) (options : options_i) (all : vw F A) (n m : Int)
    (hcats : options.int_value "cats" = some n) (hpdf : options.int_value "cats_pdf" = some m)
    (hpos : 0 < n) :
    (n ≠ m → setup setup_base options all =
      ((with_sample_pdf options, all), Except.error vw_exception.action_counts_disagree_s)) ∧
    (n = m → setup setup_base options all = built (setup_base (with_sample_pdf options) all)) ∧
    (n = m → ∀ st b, setup_base (with_sample_pdf options) all = (st, Except.ok b) →
      setup setup_base options all = (st, Except.ok (some (wrapped b)))) := by
  have hm : options.add_and_parse declared_options "cats_pdf" = m :=
    add_and_parse_cats_pdf options m hpdf
  have hsup : (with_sample_pdf options).was_supplied "cats_pdf" = true := by
    have h1 : options.was_supplied "cats_pdf" = true :=
      was_supplied_of_int_value options "cats_pdf" m hpdf
    unfold options_i.was_supplied at h1 ⊢
    cases hg : options.get "cats_pdf" with
    | none => simp [hg] at h1
    | some text => simp [get_with_sample_pdf options "cats_pdf" text hg]
  have hmain := setup_of_positive setup_base options all n hcats hpos
  rw [hsup, hm] at hmain
  simp only [if_true] at hmain
  refine ⟨?_, ?_, ?_⟩
  · intro hne
    rw [hmain, if_pos (fun h => hne h.symm)]
  · intro heq
    rw [hmain, if_neg (fun h => h heq.symm)]
  · intro heq st b hb
    rw [hmain, if_neg (fun h => h heq.symm), hb]
    rfl

theorem setup_with_both_counts_witness :
    (options_i.mk [("cats", "4"), ("cats_pdf", "4")]).int_value "cats" = some 4 ∧
    (options_i.mk [("cats", "4"), ("cats_pdf", "4")]).int_value "cats_pdf" = some 4 ∧
    ((4 : Int) = 4 → setup (base_ok (vw_example Int Unit) aggregate)
        (options_i.mk [("cats", "4"), ("cats_pdf", "4")]) session0 =
      built (base_ok (vw_example Int Unit) aggregate
        (with_sample_pdf (options_i.mk [("cats", "4"), ("cats_pdf", "4")])) session0)) :=
  ⟨by decide, by decide,
    (setup_with_both_counts (base_ok (vw_example Int Unit) aggregate)
      (options_i.mk [("cats", "4"), ("cats_pdf", "4")]) session0 4 4
      (by decide) (by decide) (by decide)).2.1⟩

/-- C4 as stated fails: with `cats` supplied as `0` and `cats_pdf` not
supplied, `setup` throws before it inserts anything, and the store after the
call holds no `cats_pdf`. -/
theorem setup_propagation_counterexample :
    (options_i.mk [("cats", "0")]).int_value "cats" = some 0 ∧
    (options_i.mk [("cats", "0")]).was_supplied "cats_pdf" = false ∧
    (setup (base_ok (vw_example Int Unit) aggregate) (options_i.mk [("cats", "0")]) session0).1.1.get
      "cats_pdf" = none :=
  ⟨by decide, by decide, by decide⟩

/-- C4, amended: when `cats` is supplied with a count `n > 0` and `cats_pdf` is
not supplied, `setup` inserts `cats_pdf` with the decimal text of `n`, which
reads back as `n`, before it calls `setup_base`: the store handed to
`setup_base` holds it, and so does the store after `setup` whenever
`setup_base` only adds entries to the store. -/
theorem setup_propagates_count {S E F A : Type}
    (setup_base : setup_base_t S E F A) (options : options_i) (all : vw F A) (n : Int)
    (hcats : options.int_value "cats" = some n) (hpos : 0 < n)
    (hpdf : options.was_supplied "cats_pdf" = false) :
    ((with_sample_pdf options).insert "cats_pdf" (to_decimal n)).get "cats_pdf" =
      some (to_decimal n) ∧
    parse_int (to_decimal n) = some n ∧
    ((with_sample_pdf options).insert "cats_pdf" (to_decimal n)).int_value "cats_pdf" = some n ∧
    setup setup_base options all =
      built (setup_base ((with_sample_pdf options).insert "cats_pdf" (to_decimal n)) all) ∧
    (((with_sample_pdf options).insert "cats_pdf" (to_decimal n)).extended_by
        (setup_base ((with_sample_pdf options).insert "cats_pdf" (to_decimal n)) all).1.1 →
      (setup setup_base options all).1.1.int_value "cats_pdf" = some n) := by
  have hnone : options.get "cats_pdf" = none := by
    unfold options_i.was_supplied at hpdf
    cases hg : options.get "cats_pdf" with
    | none => rfl
    | some text => simp [hg] at hpdf
  have hnone1 : (with_sample_pdf options).get "cats_pdf" = none := by
    rw [get_with_sample_pdf_of_ne options "cats_pdf" (by decide)]
    exact hnone
  have hsup : (with_sample_pdf options).was_supplied "cats_pdf" = false := by
    unfold options_i.was_supplied
    simp [hnone1]
  have hget := get_insert_of_none (with_sample_pdf options) "cats_pdf" (to_decimal n) hnone1
  have hparse := parse_int_to_decimal n
  have hmain := setup_of_positive setup_base options all n hcats hpos
  rw [hsup] at hmain
  simp only [Bool.false_eq_true, if_false] at hmain
  refine ⟨hget, hparse, ?_, hmain, ?_⟩
  · unfold options_i.int_value
    rw [hget]
    exact hparse
  · intro hext
    rw [hmain, built_fst]
    unfold options_i.int_value
    rw [get_extended_by _ _ "cats_pdf" (to_decimal n) hext hget]
    exact hparse

theorem setup_propagates_count_witness :
    (options_i.mk [("cats", "4")]).int_value "cats" = some 4 ∧
    (options_i.mk [("cats", "4")]).was_supplied "cats_pdf" = false ∧
    ((with_sample_pdf (options_i.mk [("cats", "4")])).insert "cats_pdf" (to_decimal 4)).get
      "cats_pdf" = some (to_decimal 4) :=
  ⟨by decide, by decide,
    (setup_propagates_count (base_ok (vw_example Int Unit) aggregate)
      (options_i.mk [("cats", "4")]) session0 4 (by decide) (by decide) (by decide)).1⟩

/-- C5 as stated fails: with neither `cats` nor `sample_pdf` supplied `setup`
returns before it inserts anything, and with `cats` supplied as `0` it throws
before it does; in both cases the store after the call holds no `sample_pdf`. -/
theorem setup_injection_counterexample :
    ((options_i.mk [("cats_pdf", "3")]).was_supplied "sample_pdf" = false ∧
      (setup (base_ok (vw_example Int Unit) aggregate)
        (options_i.mk [("cats_pdf", "3")]) session0).1.1.get "sample_pdf" = none) ∧
    ((options_i.mk [("cats", "0")]).was_supplied "sample_pdf" = false ∧
      (setup (base_ok (vw_example Int Unit) aggregate)
        (options_i.mk [("cats", "0")]) session0).1.1.get "sample_pdf" = none) :=
  ⟨⟨by decide, by decide⟩, ⟨by decide, by decide⟩⟩

/-- C5, amended: when `cats` is supplied with a count `n > 0` and `sample_pdf`
is not supplied, `setup` inserts `sample_pdf` with the empty text before it
compares the counts: the store `handed` that it leaves behind when it throws
`action_counts_disagree`, or that it hands to `setup_base`, holds `sample_pdf`
with the empty text, and so does the store after `setup` whenever `setup_base`
only adds entries to the store. -/
theorem setup_injects_sample_pdf {S E F A : Type}
    (setup_base : setup_base_t S E F A) (options : options_i) (all : vw F A) (n : Int)
    (hcats : options.int_value "cats" = some n) (hpos : 0 < n)
    (hsample : options.was_supplied "sample_pdf" = false) :
    ∃ handed : options_i,
      handed.get "sample_pdf" = some "" ∧
      (setup setup_base options all =
          ((handed, all), Except.error vw_exception.action_counts_disagree_s) ∨
        setup setup_base options all = built (setup_base handed all)) ∧
      (handed.extended_by (setup_base handed all).1.1 →
        (setup setup_base options all).1.1.get "sample_pdf" = some "") := by
  have hnone : options.get "sample_pdf" = none := by
    unfold options_i.was_supplied at hsample
    cases hg : options.get "sample_pdf" with
    | none => rfl
    | some text => simp [hg] at hsample
  have hw : with_sample_pdf options = options.insert "sample_pdf" "" := by
    unfold with_sample_pdf
    simp [hsample]
  have hget : (with_sample_pdf options).get "sample_pdf" = some "" := by
    rw [hw]
    exact get_insert_of_none options "sample_pdf" "" hnone
  have hmain := setup_of_positive setup_base options all n hcats hpos
  by_cases hpdf : (with_sample_pdf options).was_supplied "cats_pdf" = true
  · rw [if_pos hpdf] at hmain
    refine ⟨with_sample_pdf options, hget, ?_, ?_⟩
    · by_cases hne : options.add_and_parse declared_options "cats_pdf" ≠ n
      · rw [if_pos hne] at hmain
        exact Or.inl hmain
      · rw [if_neg hne] at hmain
        exact Or.inr hmain
    · intro hext
      by_cases hne : options.add_and_parse declared_options "cats_pdf" ≠ n
      · rw [if_pos hne] at hmain
        rw [hmain]
        exact hget
      · rw [if_neg hne] at hmain
        rw [hmain, built_fst]
        exact get_extended_by _ _ "sample_pdf" "" hext hget
  · rw [if_neg hpdf] at hmain
    have hget2 : ((with_sample_pdf options).insert "cats_pdf" (to_decimal n)).get "sample_pdf" =
        some "" := get_insert_of_some _ _ _ "sample_pdf" "" hget
    refine ⟨(with_sample_pdf options).insert "cats_pdf" (to_decimal n), hget2, Or.inr hmain, ?_⟩
    intro hext
    rw [hmain, built_fst]
    exact get_extended_by _ _ "sample_pdf" "" hext hget2

theorem setup_injects_sample_pdf_witness :
    (options_i.mk [("cats", "4")]).int_value "cats" = some 4 ∧
    (options_i.mk [("cats", "4")]).was_supplied "sample_pdf" = false ∧
    ∃ handed : options_i,
      handed.get "sample_pdf" = some "" ∧
      (setup (base_ok (vw_example Int Unit) aggregate) (options_i.mk [("cats", "4")]) session0 =
          ((handed, session0), Except.error vw_exception.action_counts_disagree_s) ∨
        setup (base_ok (vw_example Int Unit) aggregate) (options_i.mk [("cats", "4")]) session0 =
          built (base_ok (vw_example Int Unit) aggregate handed session0)) ∧
      (handed.extended_by (base_ok (vw_example Int Unit) aggregate handed session0).1.1 →
        (setup (base_ok (vw_example Int Unit) aggregate)
          (options_i.mk [("cats", "4")]) session0).1.1.get "sample_pdf" = some "") :=
  ⟨by decide, by decide,
    setup_injects_sample_pdf (base_ok (vw_example Int Unit) aggregate)
      (options_i.mk [("cats", "4")]) session0 4 (by decide) (by decide) (by decide)⟩

/-! ## Properties of the stage wrapper -/

/-- C6: on an example whose test-only flag is set, `cats::learn` stops at the
failed `assert(!ec.test_only)`, whatever the inner stage is: the wrapper (and
with it the inner stage and its state) and the example are exactly as before,
so neither the inner `predict` nor the inner `learn` has run. The same holds
for the registered entry point `predict_or_learn<true>`. -/
theorem learn_on_test_only_fails_fast {S F X : Type} (self : cats S (vw_example F X))
    (base : single_learner S (vw_example F X)) (ec : vw_example F X)
    (status : Option api_status) (h : ec.test_only = true) :
    self.learn ec status = ((self, ec), Except.error fault.assertion_failed) ∧
    predict_or_learn true self base ec = ((self, ec), Except.error fault.assertion_failed) := by
  have hl : ∀ st : Option api_status,
      self.learn ec st = ((self, ec), Except.error fault.assertion_failed) := by
    intro st
    unfold cats.learn assert
    simp [h]
  refine ⟨hl status, ?_⟩
  unfold predict_or_learn
  simp [hl]

theorem learn_on_test_only_fails_fast_witness :
    unlabelled_example.test_only = true ∧
    (({} : cats (List String) (vw_example Int Unit)).init recording_stage).learn
        unlabelled_example none =
      (((({} : cats (List String) (vw_example Int Unit)).init recording_stage),
        unlabelled_example), Except.error fault.assertion_failed) :=
  ⟨by decide,
    (learn_on_test_only_fails_fast
      (({} : cats (List String) (vw_example Int Unit)).init recording_stage)
      recording_stage unlabelled_example none (by decide)).1⟩

/-- C7: the wrapper bound to an inner stage `base` is a pass-through.
Its `predict` leaves the inner stage and the example exactly as one call of
the inner `predict` does and returns `success`; on an example that is not
test-only its `learn` leaves them exactly as the inner `predict` followed by
the inner `learn` does and returns `success`. The registered entry points
`predict_or_learn<false>` and `predict_or_learn<true>` do the same. -/
theorem wrapper_is_pass_through {S F X : Type} (self : cats S (vw_example F X))
    (base other : single_learner S (vw_example F X)) (ec : vw_example F X)
    (status : Option api_status) :
    (self.init base).predict ec status =
      ((self.init (spec_predict base ec).1, (spec_predict base ec).2),
        Except.ok error_code.success) ∧
    predict_or_learn false (self.init base) other ec =
      ((self.init (spec_predict base ec).1, (spec_predict base ec).2), Except.ok ()) ∧
    (ec.test_only = false →
      (self.init base).learn ec status =
        ((self.init (spec_learn base ec).1, (spec_learn base ec).2),
          Except.ok error_code.success) ∧
      predict_or_learn true (self.init base) other ec =
        ((self.init (spec_learn base ec).1, (spec_learn base ec).2), Except.ok ())) := by
  have hp : ∀ st : Option api_status, (self.init base).predict ec st =
      ((self.init (spec_predict base ec).1, (spec_predict base ec).2),
        Except.ok error_code.success) := by
    intro st
    rfl
  refine ⟨hp status, ?_, ?_⟩
  · unfold predict_or_learn
    simp [hp]
  · intro h
    have hl : ∀ st : Option api_status, (self.init base).learn ec st =
        ((self.init (spec_learn base ec).1, (spec_learn base ec).2),
          Except.ok error_code.success) := by
      intro st
      unfold cats.learn assert
      simp only [h, Bool.not_false, if_true]
      rfl
    refine ⟨hl status, ?_⟩
    unfold predict_or_learn
    simp [hl]

theorem wrapper_is_pass_through_witness :
    labelled_example.test_only = false ∧
    ((({} : cats (List String) (vw_example Int Unit)).init recording_stage).learn
        labelled_example none).1.1._base.map (fun b => b.state) = some ["predict", "learn"] ∧
    ((({} : cats (List String) (vw_example Int Unit)).init recording_stage).learn
        labelled_example none).1.2.a_pdf = (recording_stage.predict labelled_example).2.a_pdf := by
  have h := ((wrapper_is_pass_through ({} : cats (List String) (vw_example Int Unit))
    recording_stage recording_stage labelled_example none).2.2 (by decide)).1
  refine ⟨by decide, ?_, ?_⟩
  · rw [h]
    decide
  · rw [h]
    decide

/-! ## Properties of the reporter -/

theorem foldl_writes (text : String) (fds : List Int) (written : List sink_write) :
    fds.foldl (fun out f => if f > 0 then out ++ [{ handle := f, text := text }] else out)
      written = written ++ spec_writes fds text := by
  induction fds generalizing written with
  | nil => simp [spec_writes]
  | cons f rest ih =>
    rw [List.foldl_cons, ih]
    by_cases hf : f > 0
    · have hf2 : 0 < f := hf
      simp [spec_writes, hf, hf2]
    · have hf2 : ¬ 0 < f := hf
      simp [spec_writes, hf, hf2]

theorem print_update_cb_cont_sink {F X A : Type} [float_ops F] (ext : collaborators F X A)
    (all : vw F A) (ec : vw_example F X) :
    (print_update_cb_cont ext all ec).1.final_prediction_sink = all.final_prediction_sink := by
  unfold print_update_cb_cont
  split
  · split <;> rfl
  · rfl

/-- C8: `output_predictions` renders the prediction once, with the flag `true`,
and appends to the writes made so far exactly one write of that text per
handle that is `> 0`, in the order of the handles, and none for a handle `≤ 0`;
for the sinks `[3, -1, 7]` the writes go to `3` and then `7`. A finished
example that is not stopped by a fault has had these writes made for the
session's sinks and its own prediction. -/
theorem output_predictions_fan_out {S F X A : Type} [float_ops F] (ext : collaborators F X A)
    (predict_file_descriptors : List Int) (prediction : action_pdf_value F)
    (written : List sink_write) (all : vw F A) (data : cats S (vw_example F X))
    (ec : vw_example F X) :
    output_predictions ext predict_file_descriptors prediction written =
      written ++ spec_writes predict_file_descriptors (ext.pdf_to_string_flag prediction true) ∧
    output_predictions ext [3, -1, 7] prediction written =
      written ++ [{ handle := 3, text := ext.pdf_to_string_flag prediction true },
                  { handle := 7, text := ext.pdf_to_string_flag prediction true }] ∧
    ((finish_example ext all data ec written).2 = Except.ok () →
      (finish_example ext all data ec written).1.written =
        written ++ spec_writes all.final_prediction_sink (ext.pdf_to_string_flag ec.a_pdf true)) := by
  have hgen : ∀ (fds : List Int) (p : action_pdf_value F),
      output_predictions ext fds p written =
        written ++ spec_writes fds (ext.pdf_to_string_flag p true) := by
    intro fds p
    unfold output_predictions
    exact foldl_writes _ fds written
  refine ⟨hgen _ _, ?_, ?_⟩
  · rw [hgen]
    simp [spec_writes]
  · intro hok
    have hsink : (report_progress ext all data ec).1.final_prediction_sink =
        all.final_prediction_sink := by
      unfold report_progress
      exact print_update_cb_cont_sink ext _ ec
    unfold finish_example at hok ⊢
    cases hr : report_progress ext all data ec with
    | mk all1 r =>
      rw [hr] at hsink
      cases r with
      | error f => simp [hr] at hok
      | ok u =>
        simp only [hr]
        rw [hgen]
        simp only at hsink
        rw [hsink]

theorem output_predictions_fan_out_witness :
    (finish_example plain_collaborators session0
        (({} : cats (List String) (vw_example Int Unit)).init recording_stage)
        labelled_example []).2 = Except.ok () ∧
    (finish_example plain_collaborators session0
        (({} : cats (List String) (vw_example Int Unit)).init recording_stage)
        labelled_example []).1.written =
      [] ++ spec_writes session0.final_prediction_sink
        (plain_collaborators.pdf_to_string_flag labelled_example.a_pdf true) :=
  ⟨rfl,
    (output_predictions_fan_out plain_collaborators [] labelled_example.a_pdf [] session0
      (({} : cats (List String) (vw_example Int Unit)).init recording_stage)
      labelled_example).2.2 rfl⟩

/-- C9: `report_progress` calls `update` once, with the test-only flag, the
has-label flag, the loss, the weight and the feature count, then adds the
weight to `weighted_labels` whatever the has-label flag is, and then goes on to
`print_update_cb_cont`. The has-label flag is true exactly when the label
sequence is not empty and its first action is not `FLT_MAX`; the loss is the
first cost, and `0` (with a false has-label flag) for an empty sequence. -/
theorem report_progress_updates_statistics {S F X A : Type} [float_ops F]
    (ext : collaborators F X A) (all : vw F A) (data : cats S (vw_example F X))
    (ec : vw_example F X) :
    report_progress ext all data ec =
      print_update_cb_cont ext
        { all with sd :=
            { weighted_labels := float_ops.add
                (ext.update all.sd ec.test_only (does_example_have_label ec)
                  (first_cost_or_zero ec) ec.weight ec.num_features).weighted_labels ec.weight,
              dump_interval :=
                (ext.update all.sd ec.test_only (does_example_have_label ec)
                  (first_cost_or_zero ec) ec.weight ec.num_features).dump_interval,
              counters :=
                (ext.update all.sd ec.test_only (does_example_have_label ec)
                  (first_cost_or_zero ec) ec.weight ec.num_features).counters } } ec ∧
    (does_example_have_label ec = true ↔ spec_has_label ec) ∧
    (ec.cb_cont.costs = [] →
      first_cost_or_zero ec = float_ops.zero ∧ does_example_have_label ec = false) ∧
    (∀ first rest, ec.cb_cont.costs = first :: rest → first_cost_or_zero ec = first.cost) := by
  refine ⟨rfl, ?_, ?_, ?_⟩
  · unfold does_example_have_label spec_has_label
    cases hc : ec.cb_cont.costs with
    | nil => simp
    | cons first rest => simp
  · intro hc
    unfold first_cost_or_zero does_example_have_label
    simp [hc]
  · intro first rest hc
    unfold first_cost_or_zero
    simp [hc]

theorem report_progress_updates_statistics_witness :
    unlabelled_example.cb_cont.costs = [] ∧
    (first_cost_or_zero unlabelled_example = (float_ops.zero : Int) ∧
      does_example_have_label unlabelled_example = false) ∧
    (report_progress plain_collaborators session0
        (({} : cats (List String) (vw_example Int Unit)).init recording_stage)
        unlabelled_example).1.sd.weighted_labels = 1 :=
  ⟨rfl,
    (report_progress_updates_statistics plain_collaborators session0
      (({} : cats (List String) (vw_example Int Unit)).init recording_stage)
      unlabelled_example).2.2.1 rfl,
    by decide⟩

/-- The unguarded read in `print_update_cb_cont`: whenever the progress line
is due and the label sequence is empty, the read of `costs[0]` is outside the
sequence. -/
theorem print_update_cb_cont_empty_label {F X A : Type} [float_ops F]
    (ext : collaborators F X A) (all : vw F A) (ec : vw_example F X)
    (hdue : (float_ops.ge (ext.weighted_examples all.sd) all.sd.dump_interval &&
      !all.quiet && !all.bfgs) = true)
    (hempty : ec.cb_cont.costs = []) :
    print_update_cb_cont ext all ec = (all, Except.error fault.index_out_of_range) := by
  unfold print_update_cb_cont
  rw [if_pos hdue]
  simp [hempty]

/-- C10 does not hold of the code: a test-only example without a label passes
through the wrapper's `predict` (its label sequence is still empty afterwards),
and `finish_example` on it, in a session that is not quiet, not in bfgs mode
and whose dump interval `1` is reached by the example's weight `1`, prints the
progress line and reads `costs[0]` from the empty sequence. -/
theorem finish_example_reads_missing_label :
    (predict_or_learn false (({} : cats (List String) (vw_example Int Unit)).init recording_stage)
        recording_stage unlabelled_example).2 = Except.ok () ∧
    (predict_or_learn false (({} : cats (List String) (vw_example Int Unit)).init recording_stage)
        recording_stage unlabelled_example).1.2.cb_cont.costs = [] ∧
    (finish_example plain_collaborators session0
        (predict_or_learn false
          (({} : cats (List String) (vw_example Int Unit)).init recording_stage)
          recording_stage unlabelled_example).1.1
        (predict_or_learn false
          (({} : cats (List String) (vw_example Int Unit)).init recording_stage)
          recording_stage unlabelled_example).1.2 []).2 =
      Except.error fault.index_out_of_range :=
  ⟨rfl, rfl, rfl⟩

end continuous_action
end VW
